import Mathlib

/-!
# Text selection menu (`src/web/static/selection_menu.js`)

A shallow embedding of the `TextSelectionMenu` class: the positioning
arithmetic of `showMenu`, the selection handler, the visibility timers and the
five actions together with the platform state they touch (local storage,
clipboard, share sheet).

Conventions of the embedding.

* Pixel quantities are JavaScript numbers. The arithmetic of `showMenu` only
  adds, subtracts and halves them, which is exact on the integer and
  half-integer values that `pageX`, `offsetWidth`, `innerWidth` take, so they
  are modelled as rationals.
* Text is a `String` (well-formed Unicode).
* A function that may throw returns a `Completion`: the state reached and the
  exception, if one was thrown.
* The continuation of an `await` runs at the point of the call: the platform
  calls of an action are logged before the `hideMenu` that ends
  `handleAction`. An `async` method that is not awaited hands its caller a
  promise, never an exception.
* A string in `localStorage` is represented by its `JSON.parse` result.
-/

namespace SelectionMenu

/-! ## Positioning arithmetic of `showMenu` (lines 101-106) -/

/-- The value of `left` when `showMenu` writes `style.left`:
`let left = x - menuWidth / 2; if (left < 10) left = 10;
if (left + menuWidth > windowWidth - 10) left = windowWidth - menuWidth - 10;`. -/
def showMenuLeft (x menuWidth windowWidth : ℚ) : ℚ :=
  let left := x - menuWidth / 2
  let left := if left < 10 then 10 else left
  let left := if left + menuWidth > windowWidth - 10 then windowWidth - menuWidth - 10 else left
  left

/-- The value of `top` when `showMenu` writes `style.top`:
`let top = y - menuHeight - 10; if (top < 10) top = y + 20;`. -/
def showMenuTop (y menuHeight : ℚ) : ℚ :=
  let top := y - menuHeight - 10
  let top := if top < 10 then y + 20 else top
  top

/-! ## Strings: `String.prototype.trim` and `encodeURIComponent` -/

/-- Code points that `trim` strips: the ECMAScript WhiteSpace and
LineTerminator productions. -/
def isJsWhitespace (c : Char) : Bool :=
  let n := c.toNat
  n == 0x09 || n == 0x0A || n == 0x0B || n == 0x0C || n == 0x0D || n == 0x20 ||
  n == 0xA0 || n == 0x1680 || (0x2000 ≤ n && n ≤ 0x200A) || n == 0x2028 ||
  n == 0x2029 || n == 0x202F || n == 0x205F || n == 0x3000 || n == 0xFEFF

/-- The platform built-in `String.prototype.trim`: leading and trailing white
space removed. -/
def jsTrim (s : String) : String :=
  ⟨((s.data.dropWhile isJsWhitespace).reverse.dropWhile isJsWhitespace).reverse⟩

/-- Characters `encodeURIComponent` leaves as they are: ASCII letters, digits
and `- _ . ! ~ * ' ( )`. -/
def isUriUnreserved (c : Char) : Bool :=
  let n := c.toNat
  (0x41 ≤ n && n ≤ 0x5A) || (0x61 ≤ n && n ≤ 0x7A) || (0x30 ≤ n && n ≤ 0x39) ||
  n == 0x2D || n == 0x5F || n == 0x2E || n == 0x21 || n == 0x7E || n == 0x2A ||
  n == 0x27 || n == 0x28 || n == 0x29

/-- The UTF-8 encoding of a code point, as byte values. -/
def utf8Bytes (c : Char) : List Nat :=
  let n := c.toNat
  if n < 0x80 then [n]
  else if n < 0x800 then [0xC0 + n / 64, 0x80 + n % 64]
  else if n < 0x10000 then [0xE0 + n / 4096, 0x80 + n / 64 % 64, 0x80 + n % 64]
  else [0xF0 + n / 262144, 0x80 + n / 4096 % 64, 0x80 + n / 64 % 64, 0x80 + n % 64]

/-- One upper-case hexadecimal digit. -/
def hexDigit (n : Nat) : Char :=
  if n < 10 then Char.ofNat (48 + n) else Char.ofNat (55 + n)

/-- A byte as `%XX`. -/
def percentByte (b : Nat) : List Char :=
  [Char.ofNat 37, hexDigit (b / 16), hexDigit (b % 16)]

/-- The platform built-in `encodeURIComponent` on well-formed text: every
character outside the unreserved set becomes the percent-escapes of its UTF-8
bytes. On text holding an unpaired surrogate the built-in throws a URIError;
a `String` holds no such text, so that exception of lines 175 and 230 is
outside this embedding. -/
def encodeURIComponent (s : String) : String :=
  ⟨s.data.flatMap fun c => if isUriUnreserved c then [c] else (utf8Bytes c).flatMap percentByte⟩

/-! ## Platform values -/

/-- A value that `JSON.parse` can return. Numbers are the integers that occur
in note records (millisecond timestamps). -/
inductive Json where
  | null
  | bool (b : Bool)
  | num (n : Int)
  | str (s : String)
  | arr (items : List Json)
  | obj (fields : List (String × Json))

/-- The member `key` of a JSON object. -/
def Json.field (key : String) : Json → Option Json
  | .obj fields => fields.lookup key
  | _ => none

/-- The string held under a `localStorage` key, up to JSON encoding: a stored
string is represented by what `JSON.parse` does with it, and
`JSON.stringify v` is the string that parses back to `v`. -/
inductive StoredText where
  /-- The empty string (falsy in `x || '[]'`). -/
  | empty
  /-- A non-empty string that `JSON.parse` rejects. -/
  | malformed
  /-- A string that `JSON.parse` decodes to `v`. -/
  | json (v : Json)

/-- Exceptions raised by the platform calls of the widget. -/
inductive JsError where
  /-- Thrown by `JSON.parse` on text that is not JSON. -/
  | syntaxError
  /-- Thrown when calling a non-function or reading a property of `undefined`. -/
  | typeError
  deriving DecidableEq, Repr

/-- How the promise of `navigator.share(shareData)` settles; a rejection
carries the `name` of its error. -/
inductive ShareResult where
  | resolved
  | rejected (name : String)
  deriving DecidableEq, Repr

/-- What `navigator.clipboard` is on this platform: undefined, present with a
`writeText` whose promise rejects, or present and working. -/
inductive ClipboardApi where
  | absent
  | rejects
  | works
  deriving DecidableEq, Repr

/-- Observable platform calls, in the order the widget issues them. -/
inductive Effect where
  /-- A toast appended by `showNotification(message)`. -/
  | notify (message : String)
  /-- A call `navigator.clipboard.writeText(value)`. -/
  | writeText (value : String)
  /-- A call `document.execCommand('copy')` with a textarea holding `value` selected. -/
  | execCopy (value : String)
  /-- A call `navigator.share(shareData)` with these title, text, url. -/
  | share (title text url : String)
  /-- A call `window.open(url, '_blank')`. -/
  | openWindow (url : String)
  /-- A call `fetch('/api/save-note', ...)` posting `body`. -/
  | fetchNote (body : Json)
  /-- The chat widget opened, its input set to `value` and focused. -/
  | chatPrompt (value : String)

/-- The value of `menu.style.display`: never assigned, `'flex'` or `'none'`. -/
inductive Display where
  | unset
  | flex
  | none
  deriving DecidableEq, Repr

/-- The two callbacks the menu passes to `setTimeout`: line 113 adds the
`visible` class, line 120 sets `display = 'none'`. -/
inductive TimerAction where
  | addVisible
  | displayNone
  deriving DecidableEq, Repr

/-- A pending timeout: the time it is due and its callback. -/
structure Timer where
  due : Nat
  action : TimerAction
  deriving DecidableEq, Repr

/-- What the platform answers when the widget reads it during one event. -/
structure Env where
  /-- The string `window.location.href`. -/
  href : String
  /-- The number `menu.offsetWidth`. -/
  menuWidth : ℚ
  /-- The number `menu.offsetHeight`. -/
  menuHeight : ℚ
  /-- The number `window.innerWidth`. -/
  windowWidth : ℚ
  /-- The number `window.innerHeight`. -/
  windowHeight : ℚ
  /-- The number `Date.now()`. -/
  dateNow : Int
  /-- The string `new Date().toISOString()`. -/
  isoString : String
  /-- The object `navigator.clipboard`. -/
  clipboardApi : ClipboardApi
  /-- The function `navigator.share`: `none` when undefined, else how its promise settles. -/
  share : Option ShareResult
  /-- Whether both `#chat-widget` and `#chat-input` exist. -/
  chatPresent : Bool

/-- The widget instance together with the platform state it reads and writes. -/
structure Widget where
  /-- The field `this.selectedText`. -/
  selectedText : String
  /-- The value `this.menu.style.display`. -/
  display : Display
  /-- Whether `this.menu.classList` contains `visible`. -/
  visibleClass : Bool
  /-- The pixels of `this.menu.style.left`, once assigned. -/
  left : Option ℚ
  /-- The pixels of `this.menu.style.top`, once assigned. -/
  top : Option ℚ
  /-- Milliseconds elapsed. -/
  clock : Nat
  /-- Pending timeouts, ordered by due time and then by creation. -/
  timers : List Timer
  /-- The item `localStorage['newsNotes']`, `none` when the key is absent. -/
  newsNotes : Option StoredText
  /-- The text on the system clipboard. -/
  clipboard : Option String
  /-- The platform calls made so far. -/
  log : List Effect

/-- The state a function call ends in and the exception it threw, if any. -/
structure Completion where
  world : Widget
  thrown : Option JsError

/-- Normal completion. -/
def Completion.done (w : Widget) : Completion := ⟨w, none⟩

/-- Abrupt completion. -/
def Completion.throw (w : Widget) (e : JsError) : Completion := ⟨w, some e⟩

/-- The promise of an `async` function that the caller does not await: the
caller continues normally whether or not the promise rejects. -/
def Completion.detached (c : Completion) : Completion := ⟨c.world, none⟩

/-! ## Timers -/

/-- Queue a timeout behind every pending one that is due no later. -/
def insertTimer (t : Timer) : List Timer → List Timer
  | [] => [t]
  | u :: us => if u.due ≤ t.due then u :: insertTimer t us else t :: u :: us

/-- The call `setTimeout(action, delay)`. -/
def setTimeout (w : Widget) (delay : Nat) (action : TimerAction) : Widget :=
  { w with timers := insertTimer ⟨w.clock + delay, action⟩ w.timers }

/-- Run one timeout callback. -/
def fire (w : Widget) (t : Timer) : Widget :=
  match t.action with
  | .addVisible => { w with visibleClass := true }
  | .displayNone => { w with display := .none }

/-- Let `ms` milliseconds pass: the timeouts that have become due run in queue
order. Their callbacks set no timeouts. -/
def elapse (w : Widget) (ms : Nat) : Widget :=
  let now := w.clock + ms
  let due := w.timers.filter fun t => decide (t.due ≤ now)
  let rest := w.timers.filter fun t => !decide (t.due ≤ now)
  due.foldl fire { w with clock := now, timers := rest }

/-- Let every pending timeout run. -/
def settle (w : Widget) : Widget :=
  w.timers.foldl fire { w with timers := [] }

/-! ## The menu (lines 79-128) -/

/-- The method `showMenu(x, y)`. -/
def showMenu (env : Env) (w : Widget) (x y : ℚ) : Widget :=
  let w := { w with display := .flex }
  let left := showMenuLeft x env.menuWidth env.windowWidth
  let top := showMenuTop y env.menuHeight
  let w := { w with left := some left, top := some top }
  setTimeout w 10 .addVisible

/-- The method `hideMenu()`. -/
def hideMenu (w : Widget) : Widget :=
  setTimeout { w with visibleClass := false } 200 .displayNone

/-- The method `handleTextSelection(e)`, where `selection` is
`window.getSelection().toString()` and `(pageX, pageY)` the event's position. -/
def handleTextSelection (env : Env) (w : Widget) (selection : String) (pageX pageY : ℚ) : Widget :=
  let text := jsTrim selection
  if text.length > 0 then
    showMenu env { w with selectedText := text } pageX pageY
  else
    hideMenu w

/-- The method `handleClickOutside(e)`, where `insideMenu` is
`this.menu.contains(e.target)`. -/
def handleClickOutside (w : Widget) (insideMenu : Bool) : Widget :=
  if !insideMenu then hideMenu w else w

/-! ## The actions (lines 130-251) -/

/-- The method `showNotification(message)`: a toast carrying `message` is
appended to the document. The toast's own fade timers (lines 241-250) touch
only that toast element and are not tracked. -/
def showNotification (w : Widget) (message : String) : Widget :=
  { w with log := w.log ++ [.notify message] }

/-- The expression `JSON.parse(localStorage.getItem('newsNotes') || '[]')`:
an absent key (`null`) and the empty string are falsy and give `[]`. -/
def parseNotes : Option StoredText → Except JsError Json
  | none => .ok (.arr [])
  | some .empty => .ok (.arr [])
  | some .malformed => .error .syntaxError
  | some (.json v) => .ok v

/-- The record `note` built on lines 154-159. -/
def newNote (env : Env) (w : Widget) : Json :=
  .obj [("id", .num env.dateNow), ("text", .str w.selectedText),
    ("timestamp", .str env.isoString), ("url", .str env.href)]

/-- The method `createNote()`. Only an array has an `unshift` method: on any
other parsed value the call `notes.unshift(note)` throws a TypeError. The
promise of `fetch` has a `catch` handler and is not awaited. -/
def createNote (env : Env) (w : Widget) : Completion :=
  match parseNotes w.newsNotes with
  | .error e => .throw w e
  | .ok notes =>
    let note := newNote env w
    match notes with
    | .arr items =>
      let w := { w with newsNotes := some (.json (.arr (note :: items))) }
      let w := showNotification w "📝 Note saved!"
      .done { w with log := w.log ++ [.fetchNote note] }
    | _ => .throw w .typeError

/-- The method `googleSearch()`. -/
def googleSearch (w : Widget) : Completion :=
  let query := encodeURIComponent w.selectedText
  .done { w with log := w.log ++ [.openWindow ("https://www.google.com/search?q=" ++ query)] }

/-- The method `askAI()`. -/
def askAI (env : Env) (w : Widget) : Completion :=
  if env.chatPresent then
    .done { w with log := w.log ++ [.chatPrompt ("Explain: \"" ++ w.selectedText ++ "\"")] }
  else
    .done w

/-- The fallback of `copyText()` (lines 198-204): a textarea holding the
selected text is appended and selected, `document.execCommand('copy')` puts
the selected content on the clipboard, the textarea is removed. -/
def copyFallback (w : Widget) : Widget :=
  let textareaValue := w.selectedText
  let w := { w with clipboard := some textareaValue, log := w.log ++ [.execCopy textareaValue] }
  showNotification w "📋 Copied to clipboard!"

/-- The method `copyText()`: reading `writeText` of an undefined
`navigator.clipboard` throws inside the `try`, a rejected `writeText` promise
throws at the `await`; both are caught. -/
def copyText (env : Env) (w : Widget) : Completion :=
  match env.clipboardApi with
  | .works =>
    let w := { w with clipboard := some w.selectedText, log := w.log ++ [.writeText w.selectedText] }
    .done (showNotification w "📋 Copied to clipboard!")
  | .rejects =>
    .done (copyFallback { w with log := w.log ++ [.writeText w.selectedText] })
  | .absent =>
    .done (copyFallback w)

/-- The method `fallbackShare()`: the promise of `writeText` is not awaited,
so a rejection does not stop the notification; an undefined
`navigator.clipboard` throws a TypeError before anything is written. -/
def fallbackShare (env : Env) (w : Widget) : Completion :=
  let shareUrl := env.href ++ "#text=" ++ encodeURIComponent w.selectedText
  match env.clipboardApi with
  | .absent => .throw w .typeError
  | .rejects =>
    .done (showNotification { w with log := w.log ++ [.writeText shareUrl] } "🔗 Share link copied!")
  | .works =>
    let w := { w with clipboard := some shareUrl, log := w.log ++ [.writeText shareUrl] }
    .done (showNotification w "🔗 Share link copied!")

/-- The state once `navigator.share(shareData)` has been called. -/
def shareCalled (env : Env) (w : Widget) : Widget :=
  { w with log := w.log ++ [.share "News Intelligence" w.selectedText env.href] }

/-- The method `shareText()`. -/
def shareText (env : Env) (w : Widget) : Completion :=
  match env.share with
  | some result =>
    let w := shareCalled env w
    match result with
    | .resolved => .done w
    | .rejected name => if name ≠ "AbortError" then fallbackShare env w else .done w
  | none => fallbackShare env w

/-- The statement `switch (action) { ... }` of `handleAction`: `createNote`
and `googleSearch` are plain calls, so what they throw leaves the switch;
`askAI`, `copyText` and `shareText` are `async` and not awaited. -/
def dispatch (env : Env) (w : Widget) (action : String) : Completion :=
  if action = "note" then createNote env w
  else if action = "search" then googleSearch w
  else if action = "ai" then (askAI env w).detached
  else if action = "copy" then (copyText env w).detached
  else if action = "share" then (shareText env w).detached
  else .done w

/-- The method `handleAction(action)`: the final `this.hideMenu()` runs when
the switch completes normally; an exception leaving the switch rejects the
promise `handleAction` returns. -/
def handleAction (env : Env) (w : Widget) (action : String) : Completion :=
  let c := dispatch env w action
  match c.thrown with
  | some e => .throw c.world e
  | none => .done (hideMenu c.world)

/-! ## Events -/

/-- The events the widget listens to (lines 16-20 and 71-75), and the passing
of time. -/
inductive Event where
  /-- A `mouseup` with the current selection text at page position `(pageX, pageY)`. -/
  | mouseup (selection : String) (pageX pageY : ℚ)
  /-- A `mousedown`; `insideMenu` tells whether its target is inside the menu. -/
  | mousedown (insideMenu : Bool)
  /-- A `scroll` of the window. -/
  | scroll
  /-- A `click` on the menu button whose `data-action` is `action`. -/
  | click (action : String)
  /-- The passing of `ms` milliseconds. -/
  | wait (ms : Nat)

/-- The listener that an event runs. A rejected `handleAction` promise is
nobody's to catch: the state it left stands. -/
def step (env : Env) (w : Widget) : Event → Widget
  | .mouseup selection pageX pageY => handleTextSelection env w selection pageX pageY
  | .mousedown insideMenu => handleClickOutside w insideMenu
  | .scroll => hideMenu w
  | .click action => (handleAction env w action).world
  | .wait ms => elapse w ms

/-- A sequence of events, each with the platform's answers at that moment. -/
def run (w : Widget) (events : List (Env × Event)) : Widget :=
  events.foldl (fun w p => step p.1 w p.2) w

/-- The widget after `constructor()` and `init()`: the menu element exists with
class `selection-menu` only and no inline style, no text is selected, no
timeout is pending. The stored notes and the clipboard are whatever the
platform holds. -/
def initial (newsNotes : Option StoredText) (clipboard : Option String) : Widget :=
  { selectedText := "", display := .unset, visibleClass := false, left := none, top := none,
    clock := 0, timers := [], newsNotes := newsNotes, clipboard := clipboard, log := [] }

/-- The state in which `shareText` decides about the fallback: after the call
of `navigator.share` where that function exists, the state at entry where it
does not. -/
def shareAttempted (env : Env) (w : Widget) : Widget :=
  match env.share with
  | some _ => shareCalled env w
  | none => w

/-! ## The visibility invariant -/

/-- Nothing shows the menu and nothing is about to: its display is not flex,
it lacks the `visible` class and no pending timeout adds that class. -/
def Quiet (w : Widget) : Prop :=
  w.display ≠ .flex ∧ w.visibleClass = false ∧ ∀ t ∈ w.timers, t.action ≠ .addVisible

instance (w : Widget) : Decidable (Quiet w) := by
  unfold Quiet
  infer_instance

/-- While no text has been captured the menu is quiet. -/
def TextWhenShown (w : Widget) : Prop :=
  w.selectedText = "" → Quiet w

instance (w : Widget) : Decidable (TextWhenShown w) := by
  unfold TextWhenShown
  infer_instance

/-! ## Sample platforms -/

/-- A desktop page: a 1280 by 720 viewport, a 300 by 40 menu, working
clipboard, no native share, chat surface present. -/
def desktop : Env :=
  { href := "https://news.example/story", menuWidth := 300, menuHeight := 40,
    windowWidth := 1280, windowHeight := 720, dateNow := 1700000000000,
    isoString := "2023-11-14T22:13:20.000Z", clipboardApi := .works, share := none,
    chatPresent := true }

/-- A narrow viewport, 320 by 600, in which the menu measures 400 by 40. -/
def narrow : Env := { desktop with menuWidth := 400, windowWidth := 320, windowHeight := 600 }

/-- A page outside a secure context: neither `navigator.share` nor
`navigator.clipboard` is defined. -/
def insecure : Env := { desktop with clipboardApi := .absent, share := none }

/-! ## Sample runs -/

/-- The widget 10ms after a `mouseup` on the desktop page with "hello"
selected: the menu is displayed and carries the `visible` class. -/
def showingHello (newsNotes : Option StoredText) : Widget :=
  run (initial newsNotes none) [(desktop, .mouseup "hello" 640 360), (desktop, .wait 10)]

/-- A quick selection: the `mousedown` that starts it, outside the menu,
and 100ms later the `mouseup` that ends it with "hello" selected. -/
def quickSelection : List (Env × Event) :=
  [(desktop, .mousedown false), (desktop, .wait 100), (desktop, .mouseup "hello" 640 360)]

/-! ## Properties of the positioning arithmetic -/

/-- The inline `left` that `showMenu` leaves is the clamped value. -/
theorem showMenu_left (env : Env) (w : Widget) (x y : ℚ) :
    (showMenu env w x y).left = some (showMenuLeft x env.menuWidth env.windowWidth) := rfl

/-- The inline `top` that `showMenu` leaves is the flipped value. -/
theorem showMenu_top (env : Env) (w : Widget) (x y : ℚ) :
    (showMenu env w x y).top = some (showMenuTop y env.menuHeight) := rfl

/-- C1 (counterexample): a 400px menu in a 320px viewport, anchored at x = 100,
is placed at left = -90, which is not at least 10. -/
theorem showMenu_wide_menu_leaves_margin :
    ¬ ∃ left, (showMenu narrow (initial none none) 100 300).left = some left ∧
      10 ≤ left ∧ left + narrow.menuWidth ≤ narrow.windowWidth - 10 := by
  rintro ⟨left, h, h10, -⟩
  rw [showMenu_left, Option.some.injEq] at h
  subst h
  norm_num [showMenuLeft, narrow, desktop] at h10

/-- C1 (amended): for every anchor, menu width and viewport width the left
coordinate that `showMenu` computes keeps the right edge inside the margin,
`left + menuWidth ≤ windowWidth - 10`, and keeps the left edge inside it,
`10 ≤ left`, exactly when the menu fits between the two margins,
`menuWidth + 20 ≤ windowWidth`. -/
theorem showMenu_left_bounds (env : Env) (w : Widget) (x y : ℚ) :
    ∃ left, (showMenu env w x y).left = some left ∧
      left + env.menuWidth ≤ env.windowWidth - 10 ∧
      (10 ≤ left ↔ env.menuWidth + 20 ≤ env.windowWidth) := by
  refine ⟨_, showMenu_left env w x y, ?_, ?_⟩
  · unfold showMenuLeft
    simp only
    split_ifs <;> linarith
  · unfold showMenuLeft
    simp only
    constructor
    · intro h
      split_ifs at h <;> linarith
    · intro h
      split_ifs <;> linarith

/-- C8 (failing input): with the anchor at y = 700, a 40px menu and a 600px
viewport, `showMenu` leaves the menu at top = 650: its bottom edge, 690, lies
below the viewport height, although a placement inside it exists (top = 560
puts the bottom edge at 600). -/
theorem showMenu_bottom_exceeds_window :
    (showMenu narrow (initial none none) 100 700).top = some 650 ∧
    ¬ ((650 : ℚ) + narrow.menuHeight ≤ narrow.windowHeight) ∧
    ((0 : ℚ) ≤ 560 ∧ (560 : ℚ) + narrow.menuHeight ≤ narrow.windowHeight) := by
  refine ⟨?_, ?_, ?_, ?_⟩
  · rw [showMenu_top]
    norm_num [showMenuTop, narrow, desktop]
  · norm_num [narrow, desktop]
  · norm_num
  · norm_num [narrow, desktop]

/-- The flip of `showMenu`: for an anchor with `0 ≤ y` and a menu height
`0 ≤ menuHeight` the top coordinate is at least 10, and it is `y + 20` exactly
when the placement above the anchor `y - menuHeight - 10` is less than 10. -/
theorem showMenu_top_margin (env : Env) (w : Widget) (x y : ℚ)
    (hy : 0 ≤ y) (hh : 0 ≤ env.menuHeight) :
    ∃ top, (showMenu env w x y).top = some top ∧ 10 ≤ top ∧
      (top = y + 20 ↔ y - env.menuHeight - 10 < 10) := by
  refine ⟨_, showMenu_top env w x y, ?_, ?_⟩
  · unfold showMenuTop
    simp only
    split_ifs <;> linarith
  · unfold showMenuTop
    simp only
    constructor
    · intro h
      split_ifs at h with h1
      · exact h1
      · linarith
    · intro h
      rw [if_pos h]

/-- Where the bottom edge does stay inside the viewport: the anchor is not
below it, `y ≤ windowHeight`, and the viewport holds the menu twice over with
both gaps, `2 * menuHeight + 40 ≤ windowHeight`. -/
theorem showMenu_bottom_fits (env : Env) (w : Widget) (x y : ℚ)
    (hy : y ≤ env.windowHeight) (hh : 2 * env.menuHeight + 40 ≤ env.windowHeight) :
    ∃ top, (showMenu env w x y).top = some top ∧
      top + env.menuHeight ≤ env.windowHeight := by
  refine ⟨_, showMenu_top env w x y, ?_⟩
  unfold showMenuTop
  simp only
  split_ifs <;> linarith

/-! ## Properties of the selection handler -/

/-- Trimming text made of white space only leaves nothing. -/
theorem jsTrim_whitespace (s : String) (h : ∀ c ∈ s.data, isJsWhitespace c = true) :
    jsTrim s = "" := by
  have h1 : s.data.dropWhile isJsWhitespace = [] := List.dropWhile_eq_nil_iff.mpr h
  unfold jsTrim
  rw [h1]
  rfl

/-- A string other than the empty one has positive length. -/
theorem length_pos_of_ne_empty (s : String) (h : s ≠ "") : s.length > 0 := by
  rcases s with ⟨l⟩
  cases l with
  | nil => exact absurd rfl h
  | cons c cs => simp [String.length]

/-- A string of positive length is not the empty one. -/
theorem ne_empty_of_length_pos (s : String) (h : s.length > 0) : s ≠ "" := by
  intro hs
  rw [hs] at h
  exact absurd h (by decide)

/-- A timeout is pending once queued. -/
theorem mem_insertTimer (t : Timer) (ts : List Timer) : t ∈ insertTimer t ts := by
  induction ts with
  | nil => simp [insertTimer]
  | cons u us ih =>
    unfold insertTimer
    split_ifs
    · exact List.mem_cons_of_mem _ ih
    · exact List.mem_cons_self _ _

/-- Queuing a timeout adds that timeout and no other. -/
theorem mem_insertTimer_iff (t u : Timer) (ts : List Timer) :
    u ∈ insertTimer t ts ↔ u = t ∨ u ∈ ts := by
  induction ts with
  | nil => simp [insertTimer]
  | cons v vs ih =>
    unfold insertTimer
    split_ifs
    · rw [List.mem_cons, ih, List.mem_cons]
      tauto
    · simp only [List.mem_cons]

/-- C4 (counterexample): for the selection " hi " the captured text is "hi",
not the selection's text with its surrounding blanks. -/
theorem handleTextSelection_drops_blanks :
    ¬ ((handleTextSelection desktop (initial none none) " hi " 640 360).display = .flex ∧
      (handleTextSelection desktop (initial none none) " hi " 640 360).selectedText = " hi ") := by
  decide

/-- C4 (amended): for every selection whose trimmed text is non-empty,
`handleTextSelection` runs `showMenu` (the menu's display becomes flex and the
timeout adding the `visible` class is queued) and `selectedText` is the
selection's text with leading and trailing white space removed. -/
theorem handleTextSelection_shows_trimmed (env : Env) (w : Widget) (selection : String)
    (pageX pageY : ℚ) (h : jsTrim selection ≠ "") :
    handleTextSelection env w selection pageX pageY =
      showMenu env { w with selectedText := jsTrim selection } pageX pageY ∧
    (handleTextSelection env w selection pageX pageY).selectedText = jsTrim selection ∧
    (handleTextSelection env w selection pageX pageY).display = .flex ∧
    ⟨w.clock + 10, .addVisible⟩ ∈ (handleTextSelection env w selection pageX pageY).timers := by
  have e : handleTextSelection env w selection pageX pageY =
      showMenu env { w with selectedText := jsTrim selection } pageX pageY := by
    unfold handleTextSelection
    simp only
    rw [if_pos (length_pos_of_ne_empty _ h)]
  rw [e]
  exact ⟨rfl, rfl, rfl, mem_insertTimer _ _⟩

/-- C4 (witness): the amended statement for the selection " hi " on the
desktop page. -/
theorem handleTextSelection_shows_trimmed_witness :
    handleTextSelection desktop (initial none none) " hi " 640 360 =
      showMenu desktop { initial none none with selectedText := jsTrim " hi " } 640 360 ∧
    (handleTextSelection desktop (initial none none) " hi " 640 360).selectedText = jsTrim " hi " ∧
    (handleTextSelection desktop (initial none none) " hi " 640 360).display = .flex ∧
    ⟨(initial none none).clock + 10, .addVisible⟩ ∈
      (handleTextSelection desktop (initial none none) " hi " 640 360).timers :=
  handleTextSelection_shows_trimmed desktop (initial none none) " hi " 640 360 (by decide)

/-- C5: for every selection whose text is empty or made of white space only,
`handleTextSelection` is `hideMenu`, whatever the state before: the `visible`
class is removed, the timeout setting `display = 'none'` is queued, and the
display and the captured text are not touched (`showMenu` does not run). -/
theorem handleTextSelection_hides (env : Env) (w : Widget) (selection : String)
    (pageX pageY : ℚ) (h : ∀ c ∈ selection.data, isJsWhitespace c = true) :
    handleTextSelection env w selection pageX pageY = hideMenu w ∧
    (handleTextSelection env w selection pageX pageY).visibleClass = false ∧
    ⟨w.clock + 200, .displayNone⟩ ∈ (handleTextSelection env w selection pageX pageY).timers ∧
    (handleTextSelection env w selection pageX pageY).display = w.display ∧
    (handleTextSelection env w selection pageX pageY).selectedText = w.selectedText := by
  have e : handleTextSelection env w selection pageX pageY = hideMenu w := by
    unfold handleTextSelection
    simp only
    rw [jsTrim_whitespace selection h]
    rfl
  rw [e]
  exact ⟨rfl, rfl, mem_insertTimer _ _, rfl, rfl⟩

/-- C5 (witness): a selection of a blank, a tab and a line break hides a menu
that was showing "old". -/
theorem handleTextSelection_hides_witness :
    (∀ c ∈ " \t\n".data, isJsWhitespace c = true) ∧
    handleTextSelection desktop
        (showMenu desktop { initial none none with selectedText := "old" } 640 360)
        " \t\n" 10 10 =
      hideMenu (showMenu desktop { initial none none with selectedText := "old" } 640 360) :=
  ⟨by decide,
   (handleTextSelection_hides desktop
      (showMenu desktop { initial none none with selectedText := "old" } 640 360)
      " \t\n" 10 10 (by decide)).1⟩

/-! ## The visibility invariant holds in every reachable state -/

/-- The state before any event satisfies the invariant. -/
theorem textWhenShown_initial (newsNotes : Option StoredText) (clipboard : Option String) :
    TextWhenShown (initial newsNotes clipboard) := by
  intro _
  exact ⟨fun hd => Display.noConfusion hd, rfl, by simp [initial]⟩

/-- The method `hideMenu` keeps the invariant. -/
theorem textWhenShown_hideMenu (w : Widget) (h : TextWhenShown w) :
    TextWhenShown (hideMenu w) := by
  intro he
  obtain ⟨hd, -, ht⟩ := h he
  refine ⟨hd, rfl, ?_⟩
  intro t ht2
  have ht3 : t ∈ insertTimer ⟨w.clock + 200, .displayNone⟩ w.timers := ht2
  rw [mem_insertTimer_iff] at ht3
  rcases ht3 with rfl | ht3
  · simp
  · exact ht t ht3

/-- The method `handleTextSelection` keeps the invariant: it shows the menu
only after capturing non-empty text. -/
theorem textWhenShown_handleTextSelection (env : Env) (w : Widget) (selection : String)
    (pageX pageY : ℚ) (h : TextWhenShown w) :
    TextWhenShown (handleTextSelection env w selection pageX pageY) := by
  unfold handleTextSelection
  simp only
  split_ifs with hl
  · intro he
    exact absurd he (ne_empty_of_length_pos _ hl)
  · exact textWhenShown_hideMenu w h

/-- No action touches the captured text, the menu's display, its class or the
timeouts. -/
theorem dispatch_menu (env : Env) (w : Widget) (action : String) :
    (dispatch env w action).world.selectedText = w.selectedText ∧
    (dispatch env w action).world.display = w.display ∧
    (dispatch env w action).world.visibleClass = w.visibleClass ∧
    (dispatch env w action).world.timers = w.timers := by
  unfold dispatch
  split_ifs
  · unfold createNote
    cases hp : parseNotes w.newsNotes with
    | error e => exact ⟨rfl, rfl, rfl, rfl⟩
    | ok notes => cases notes <;> exact ⟨rfl, rfl, rfl, rfl⟩
  · exact ⟨rfl, rfl, rfl, rfl⟩
  · unfold askAI
    split_ifs <;> exact ⟨rfl, rfl, rfl, rfl⟩
  · unfold copyText
    cases env.clipboardApi <;> exact ⟨rfl, rfl, rfl, rfl⟩
  · unfold shareText fallbackShare
    cases env.share with
    | none => cases env.clipboardApi <;> exact ⟨rfl, rfl, rfl, rfl⟩
    | some r =>
      cases r with
      | resolved => exact ⟨rfl, rfl, rfl, rfl⟩
      | rejected name =>
        simp only
        split_ifs
        · cases env.clipboardApi <;> exact ⟨rfl, rfl, rfl, rfl⟩
        · exact ⟨rfl, rfl, rfl, rfl⟩
  · exact ⟨rfl, rfl, rfl, rfl⟩

/-- The invariant only reads the menu's fields. -/
theorem textWhenShown_congr (w v : Widget) (h : TextWhenShown w)
    (h1 : v.selectedText = w.selectedText) (h2 : v.display = w.display)
    (h3 : v.visibleClass = w.visibleClass) (h4 : v.timers = w.timers) :
    TextWhenShown v := by
  unfold TextWhenShown Quiet
  rw [h1, h2, h3, h4]
  exact h

/-- The method `handleAction` keeps the invariant, whether or not it reaches
its final `hideMenu`. -/
theorem textWhenShown_handleAction (env : Env) (w : Widget) (action : String)
    (h : TextWhenShown w) : TextWhenShown (handleAction env w action).world := by
  obtain ⟨h1, h2, h3, h4⟩ := dispatch_menu env w action
  have hd : TextWhenShown (dispatch env w action).world :=
    textWhenShown_congr w _ h h1 h2 h3 h4
  unfold handleAction
  simp only
  cases (dispatch env w action).thrown with
  | none => exact textWhenShown_hideMenu _ hd
  | some e => exact hd

/-- Running timeouts none of which adds the `visible` class leaves a quiet
menu quiet; no timeout touches the captured text or the queue. -/
theorem foldl_fire_quiet (ts : List Timer) (w : Widget)
    (hts : ∀ t ∈ ts, t.action ≠ .addVisible) :
    (ts.foldl fire w).selectedText = w.selectedText ∧
    (ts.foldl fire w).timers = w.timers ∧
    (w.display ≠ .flex → (ts.foldl fire w).display ≠ .flex) ∧
    (w.visibleClass = false → (ts.foldl fire w).visibleClass = false) := by
  induction ts generalizing w with
  | nil => exact ⟨rfl, rfl, id, id⟩
  | cons t ts ih =>
    have ht : t.action ≠ .addVisible := hts t (List.mem_cons_self _ _)
    have hf : fire w t = { w with display := .none } := by
      unfold fire
      cases hta : t.action with
      | addVisible => exact absurd hta ht
      | displayNone => rfl
    obtain ⟨i1, i2, i3, i4⟩ := ih (fire w t) (fun u hu => hts u (List.mem_cons_of_mem _ hu))
    rw [List.foldl_cons]
    refine ⟨?_, ?_, ?_, ?_⟩
    · rw [i1, hf]
    · rw [i2, hf]
    · intro _
      apply i3
      rw [hf]
      exact fun hd => Display.noConfusion hd
    · intro hv
      apply i4
      rw [hf]
      exact hv

/-- Running timeouts never changes the captured text. -/
theorem foldl_fire_selectedText (ts : List Timer) (w : Widget) :
    (ts.foldl fire w).selectedText = w.selectedText := by
  induction ts generalizing w with
  | nil => rfl
  | cons t ts ih =>
    rw [List.foldl_cons, ih]
    unfold fire
    cases t.action <;> rfl

/-- The passing of time keeps the invariant. -/
theorem textWhenShown_elapse (w : Widget) (ms : Nat) (h : TextWhenShown w) :
    TextWhenShown (elapse w ms) := by
  intro he
  unfold elapse at he ⊢
  simp only at he ⊢
  rw [foldl_fire_selectedText] at he
  obtain ⟨hd, hv, ht⟩ := h he
  obtain ⟨-, i2, i3, i4⟩ := foldl_fire_quiet
    (w.timers.filter fun t => decide (t.due ≤ w.clock + ms))
    { w with clock := w.clock + ms,
             timers := w.timers.filter fun t => !decide (t.due ≤ w.clock + ms) }
    (fun t hm => ht t (List.mem_of_mem_filter hm))
  refine ⟨i3 hd, i4 hv, ?_⟩
  rw [i2]
  intro t hm
  exact ht t (List.mem_of_mem_filter hm)

/-- Every listener keeps the invariant. -/
theorem textWhenShown_step (env : Env) (w : Widget) (e : Event) (h : TextWhenShown w) :
    TextWhenShown (step env w e) := by
  cases e with
  | mouseup selection pageX pageY => exact textWhenShown_handleTextSelection env w _ _ _ h
  | mousedown insideMenu =>
    show TextWhenShown (handleClickOutside w insideMenu)
    unfold handleClickOutside
    split_ifs
    · exact textWhenShown_hideMenu w h
    · exact h
  | scroll => exact textWhenShown_hideMenu w h
  | click action => exact textWhenShown_handleAction env w action h
  | wait ms => exact textWhenShown_elapse w ms h

/-- Every sequence of events keeps the invariant. -/
theorem textWhenShown_run (events : List (Env × Event)) (w : Widget) (h : TextWhenShown w) :
    TextWhenShown (run w events) := by
  induction events generalizing w with
  | nil => exact h
  | cons p ps ih => exact ih _ (textWhenShown_step p.1 w p.2 h)

/-- C6: in every state reached from the initial state by any sequence of
selection-end, pointer-down, scroll and action events (with any passing of
time between them), if the menu's display is flex or it carries the `visible`
class then `selectedText` is non-empty. -/
theorem selectedText_nonempty_when_visible (newsNotes : Option StoredText)
    (clipboard : Option String) (events : List (Env × Event))
    (hv : (run (initial newsNotes clipboard) events).display = .flex ∨
      (run (initial newsNotes clipboard) events).visibleClass = true) :
    (run (initial newsNotes clipboard) events).selectedText ≠ "" := by
  intro he
  obtain ⟨hd, hc, -⟩ :=
    textWhenShown_run events _ (textWhenShown_initial newsNotes clipboard) he
  rcases hv with hv | hv
  · exact hd hv
  · rw [hc] at hv
    exact absurd hv (by decide)

/-- C6 (witness): after a selection of "hello" and 10ms the menu is displayed
with the `visible` class, and the captured text is not empty. -/
theorem selectedText_nonempty_when_visible_witness :
    ((run (initial none none) [(desktop, .mouseup "hello" 640 360), (desktop, .wait 10)]).display
        = .flex ∨
      (run (initial none none) [(desktop, .mouseup "hello" 640 360), (desktop, .wait 10)]).visibleClass
        = true) ∧
    (run (initial none none) [(desktop, .mouseup "hello" 640 360), (desktop, .wait 10)]).selectedText
      ≠ "" :=
  ⟨Or.inl (by decide),
   selectedText_nonempty_when_visible none none
     [(desktop, .mouseup "hello" 640 360), (desktop, .wait 10)] (Or.inl (by decide))⟩

/-! ## Properties of the actions -/

/-- C2: for every stored note list (the key absent or holding the empty string
counting as the empty list) and every captured selection, `createNote`
completes normally and leaves under `newsNotes` the new note followed by the
previous records in their order: one record more, the new record first, its
`text` the captured selection and its `url` the page's URL. -/
theorem createNote_prepends (env : Env) (w : Widget) (items : List Json)
    (h : w.newsNotes = some (.json (.arr items)) ∨
      (items = [] ∧ (w.newsNotes = none ∨ w.newsNotes = some .empty))) :
    (createNote env w).thrown = none ∧
    (createNote env w).world.newsNotes = some (.json (.arr (newNote env w :: items))) ∧
    (newNote env w :: items).length = items.length + 1 ∧
    (newNote env w :: items).head? = some (newNote env w) ∧
    (newNote env w).field "text" = some (.str w.selectedText) ∧
    (newNote env w).field "url" = some (.str env.href) := by
  have hp : parseNotes w.newsNotes = .ok (.arr items) := by
    rcases h with h | ⟨rfl, h | h⟩ <;> rw [h] <;> rfl
  refine ⟨?_, ?_, rfl, rfl, rfl, rfl⟩
  · unfold createNote
    rw [hp]
    rfl
  · unfold createNote
    rw [hp]
    rfl

/-- C2 (witness): with one older record stored, selecting "quantum
entanglement" and creating a note stores the new record in front of it. -/
theorem createNote_prepends_witness :
    (createNote desktop
        { initial (some (.json (.arr [.obj [("text", .str "older")]]))) none with
          selectedText := "quantum entanglement" }).world.newsNotes =
      some (.json (.arr
        [.obj [("id", .num 1700000000000), ("text", .str "quantum entanglement"),
           ("timestamp", .str "2023-11-14T22:13:20.000Z"),
           ("url", .str "https://news.example/story")],
         .obj [("text", .str "older")]])) :=
  (createNote_prepends desktop
    { initial (some (.json (.arr [.obj [("text", .str "older")]]))) none with
      selectedText := "quantum entanglement" }
    [.obj [("text", .str "older")]] (Or.inl rfl)).2.1

/-- The method `fallbackShare` never completes without a trace: it throws or
it logs its clipboard call. -/
theorem fallbackShare_ne_done (env : Env) (v : Widget) :
    fallbackShare env v ≠ .done v := by
  intro h
  unfold fallbackShare at h
  simp only at h
  cases hc : env.clipboardApi with
  | absent =>
    rw [hc] at h
    have ht := congrArg Completion.thrown h
    exact absurd ht (by simp [Completion.throw, Completion.done])
  | rejects =>
    rw [hc] at h
    have hl := congrArg (fun c => c.world.log.length) h
    simp [Completion.done, showNotification] at hl
  | works =>
    rw [hc] at h
    have hl := congrArg (fun c => c.world.log.length) h
    simp [Completion.done, showNotification] at hl

/-- The branching of `shareText` on the outcome of the native share call:
`shareText` ends as `fallbackShare` does exactly when `navigator.share` is
undefined or its promise rejects with an error whose name is not
`AbortError`; otherwise (success or cancel) it completes normally having made
the share call only: no clipboard write, no notification. Every value that
`fallbackShare` passes to `writeText` is the page URL followed by `#text=` and
the URI-encoded selected text; where `navigator.clipboard` exists it makes
that call and then notifies, and a working clipboard then holds that value. -/
theorem shareText_fallback_iff (env : Env) (w : Widget) :
    (shareText env w = fallbackShare env (shareAttempted env w) ↔
      (env.share = none ∨ ∃ name, env.share = some (.rejected name) ∧ name ≠ "AbortError")) ∧
    ((env.share = some .resolved ∨ env.share = some (.rejected "AbortError")) →
      shareText env w = .done (shareCalled env w)) ∧
    ((shareCalled env w).log = w.log ++ [.share "News Intelligence" w.selectedText env.href] ∧
      (shareCalled env w).clipboard = w.clipboard) ∧
    (∀ v : Widget, ∃ added, (fallbackShare env v).world.log = v.log ++ added ∧
      ∀ value, Effect.writeText value ∈ added →
        value = env.href ++ "#text=" ++ encodeURIComponent v.selectedText) ∧
    (∀ v : Widget, env.clipboardApi ≠ .absent →
      (fallbackShare env v).thrown = none ∧
      (fallbackShare env v).world.log = v.log ++
        [.writeText (env.href ++ "#text=" ++ encodeURIComponent v.selectedText),
         .notify "🔗 Share link copied!"]) ∧
    (∀ v : Widget, env.clipboardApi = .works →
      (fallbackShare env v).world.clipboard =
        some (env.href ++ "#text=" ++ encodeURIComponent v.selectedText)) := by
  refine ⟨?_, ?_, ⟨rfl, rfl⟩, ?_, ?_, ?_⟩
  · unfold shareText shareAttempted
    cases hs : env.share with
    | none => simp
    | some r =>
      cases r with
      | resolved =>
        simp only [reduceCtorEq, false_or, Option.some.injEq, false_and, exists_false, iff_false]
        exact fun h => fallbackShare_ne_done env _ h.symm
      | rejected name =>
        by_cases hn : name = "AbortError"
        · subst hn
          simp only [ne_eq, not_true_eq_false, if_false, reduceCtorEq, false_or,
            Option.some.injEq, ShareResult.rejected.injEq, exists_eq_left', iff_false]
          exact fun h => fallbackShare_ne_done env _ h.symm
        · simp only [ne_eq, hn, not_false_eq_true, if_true, reduceCtorEq, false_or,
            Option.some.injEq, ShareResult.rejected.injEq, exists_eq_left', true_iff]
  · rintro (hs | hs)
    · unfold shareText
      rw [hs]
    · unfold shareText
      rw [hs]
      simp
  · intro v
    unfold fallbackShare
    cases env.clipboardApi with
    | absent => exact ⟨[], by simp [Completion.throw], by simp⟩
    | rejects =>
      refine ⟨[.writeText (env.href ++ "#text=" ++ encodeURIComponent v.selectedText),
        .notify "🔗 Share link copied!"], by simp [Completion.done, showNotification], ?_⟩
      intro value hv
      simpa using hv
    | works =>
      refine ⟨[.writeText (env.href ++ "#text=" ++ encodeURIComponent v.selectedText),
        .notify "🔗 Share link copied!"], by simp [Completion.done, showNotification], ?_⟩
      intro value hv
      simpa using hv
  · intro v hc
    unfold fallbackShare
    cases h : env.clipboardApi with
    | absent => exact absurd h hc
    | rejects => simp [Completion.done, showNotification]
    | works => simp [Completion.done, showNotification]
  · intro v hc
    unfold fallbackShare
    rw [hc]
    rfl

/-- C3 (failing input): with "hello" captured on a page where both
`navigator.share` and `navigator.clipboard` are undefined, `shareText` takes
the fallback branch and ends in a TypeError: no `writeText` call is made, no
notification is shown and the clipboard keeps what it held. The un-awaited
call in `handleAction` swallows the rejection and hides the menu. -/
theorem shareText_unguarded_clipboard :
    insecure.share = none ∧
    (shareText insecure (showingHello none)).thrown = some .typeError ∧
    (shareText insecure (showingHello none)).world.log = [] ∧
    (shareText insecure (showingHello none)).world.clipboard = none ∧
    (handleAction insecure (showingHello none) "share").thrown = none ∧
    (handleAction insecure (showingHello none) "share").world.log = [] ∧
    (handleAction insecure (showingHello none) "share").world.clipboard = none := by
  refine ⟨rfl, by decide, rfl, by decide, by decide, rfl, by decide⟩

/-- C9: for every selected text and every state of `navigator.clipboard`
(working, rejecting or undefined), `copyText` leaves the clipboard holding
exactly the selected text, shows the notification "Copied to clipboard" as
its last step (after `writeText` alone when that succeeds, after the
textarea's `execCommand('copy')` when it does not), and throws nothing. -/
theorem copyText_clipboard (env : Env) (w : Widget) :
    (copyText env w).world.clipboard = some w.selectedText ∧
    (copyText env w).thrown = none ∧
    (copyText env w).world.log = w.log ++
      (match env.clipboardApi with
        | .works => [.writeText w.selectedText]
        | .rejects => [.writeText w.selectedText, .execCopy w.selectedText]
        | .absent => [.execCopy w.selectedText]) ++
      [.notify "📋 Copied to clipboard!"] := by
  unfold copyText
  cases env.clipboardApi <;>
    simp [Completion.done, copyFallback, showNotification]

/-! ## Exceptions leaving `handleAction` -/

/-- The method `handleAction` completes normally exactly when it is not the
`note` action on a stored item that is no JSON array; it then ends with
`hideMenu`. -/
theorem handleAction_thrown_iff (env : Env) (w : Widget) (action : String) :
    ((handleAction env w action).thrown = none ↔
      ¬ (action = "note" ∧ ∀ items, parseNotes w.newsNotes ≠ .ok (.arr items))) ∧
    ((handleAction env w action).thrown = none →
      (handleAction env w action).world = hideMenu (dispatch env w action).world) := by
  have key : (dispatch env w action).thrown = none ↔
      ¬ (action = "note" ∧ ∀ items, parseNotes w.newsNotes ≠ .ok (.arr items)) := by
    unfold dispatch
    by_cases h1 : action = "note"
    · rw [if_pos h1]
      unfold createNote
      cases hp : parseNotes w.newsNotes with
      | error e => simp [Completion.throw, h1]
      | ok notes => cases notes <;> simp [Completion.throw, Completion.done, h1]
    · rw [if_neg h1]
      simp only [h1, false_and, not_false_eq_true, iff_true]
      split_ifs <;> rfl
  unfold handleAction
  simp only
  cases hd : (dispatch env w action).thrown with
  | none =>
    rw [hd] at key
    exact ⟨⟨fun _ => key.mp rfl, fun _ => rfl⟩, fun _ => rfl⟩
  | some e =>
    rw [hd] at key
    refine ⟨⟨fun h => ?_, fun h => ?_⟩, fun h => ?_⟩
    · exact absurd h (by simp [Completion.throw])
    · exact absurd (key.mpr h) (by simp)
    · exact absurd h (by simp [Completion.throw])

/-- C7 (failing input): with the menu showing for "hello" and `{}` stored
under `newsNotes`, the `note` action ends in a TypeError and the final
`hideMenu` is not reached: the class stays, no timeout is queued. With text
that is not JSON stored, it ends in a SyntaxError. -/
theorem handleAction_note_rejects :
    (handleAction desktop (showingHello (some (.json (.obj [])))) "note").thrown
      = some .typeError ∧
    (handleAction desktop (showingHello (some (.json (.obj [])))) "note").world.visibleClass
      = true ∧
    (handleAction desktop (showingHello (some (.json (.obj [])))) "note").world.timers = [] ∧
    (handleAction desktop (showingHello (some .malformed)) "note").thrown
      = some .syntaxError := by
  decide

/-! ## The stale hide timeout -/

/-- Running timeouts that do not hide keeps a displayed menu displayed, and
leaves it with the `visible` class when it had it or one of them adds it. -/
theorem foldl_fire_visible (ts : List Timer) (w : Widget)
    (hts : ∀ t ∈ ts, t.action ≠ .displayNone) (hd : w.display = .flex) :
    (ts.foldl fire w).display = .flex ∧
    ((w.visibleClass = true ∨ ts ≠ []) → (ts.foldl fire w).visibleClass = true) := by
  induction ts generalizing w with
  | nil =>
    refine ⟨hd, ?_⟩
    rintro (h | h)
    · exact h
    · exact absurd rfl h
  | cons t ts ih =>
    have ht : t.action ≠ .displayNone := hts t (List.mem_cons_self _ _)
    have hf : fire w t = { w with visibleClass := true } := by
      unfold fire
      cases hta : t.action with
      | addVisible => rfl
      | displayNone => exact absurd hta ht
    obtain ⟨i1, i2⟩ := ih (fire w t) (fun u hu => hts u (List.mem_cons_of_mem _ hu))
      (by rw [hf]; exact hd)
    rw [List.foldl_cons]
    refine ⟨i1, fun _ => i2 (Or.inl ?_)⟩
    rw [hf]

/-- When no hide timeout is pending, a shown menu ends displayed with the
`visible` class once its timeouts have run. -/
theorem showMenu_settles_visible (env : Env) (w : Widget) (x y : ℚ)
    (h : ∀ t ∈ w.timers, t.action ≠ .displayNone) :
    (settle (showMenu env w x y)).display = .flex ∧
    (settle (showMenu env w x y)).visibleClass = true ∧
    (settle (showMenu env w x y)).timers = [] := by
  have hq : ∀ t ∈ insertTimer ⟨w.clock + 10, .addVisible⟩ w.timers,
      t.action ≠ .displayNone := by
    intro t ht
    rw [mem_insertTimer_iff] at ht
    rcases ht with rfl | ht
    · simp
    · exact h t ht
  have hne : insertTimer ⟨w.clock + 10, .addVisible⟩ w.timers ≠ [] :=
    List.ne_nil_of_mem (mem_insertTimer _ _)
  obtain ⟨i1, i2⟩ := foldl_fire_visible
    (insertTimer ⟨w.clock + 10, .addVisible⟩ w.timers)
    { showMenu env w x y with timers := [] } hq rfl
  refine ⟨i1, i2 (Or.inr hne), ?_⟩
  have ht : ∀ (ts : List Timer) (v : Widget), (ts.foldl fire v).timers = v.timers := by
    intro ts
    induction ts with
    | nil => intro v; rfl
    | cons t ts ih =>
      intro v
      rw [List.foldl_cons, ih]
      unfold fire
      cases t.action <;> rfl
  exact ht _ _

/-- C10 (failing input): a `mousedown` outside the menu, 100ms later the
`mouseup` ending a selection of "hello", and nothing after it. Once every
pending timeout has run the menu's display is `none` (it carries the
`visible` class, and "hello" is captured): the hide timeout of the
`mousedown`, due at 200ms, runs after `showMenu` has set the display. -/
theorem stale_hide_timeout_hides_menu :
    (settle (run (initial none none) quickSelection)).display = .none ∧
    (settle (run (initial none none) quickSelection)).visibleClass = true ∧
    (settle (run (initial none none) quickSelection)).selectedText = "hello" ∧
    (settle (run (initial none none) quickSelection)).timers = [] ∧
    (run (initial none none) (quickSelection ++ [(desktop, .wait 1000)])).display = .none ∧
    (run (initial none none) (quickSelection ++ [(desktop, .wait 1000)])).timers = [] := by
  decide

end SelectionMenu
